import Mathlib

/-!
Verification of the Virtumancer host/VM control plane against its Go
implementation.  The definitions below are a shallow embedding of the
relevant source functions:

  * `internal/services/host_service.go` — `syncSingleVM`, `syncVMHardware`,
    `mapLibvirtStateToVMState`, `syncAndListVMs`, `AddHost`, `RemoveHost`,
    `GetVMHardwareAndTriggerSync`, `getVMHardwareFromDB`,
    `MonitoringManager.pollVmStats`.
  * `internal/libvirt/connector.go` — `GetDomainStats`.
  * the console package — `HandleConsole` / `HandleSpiceConsole` target
    resolution.

The relational store (GORM over SQLite) is modelled as lists of rows with a
surrogate-id allocator; driver RPCs are modelled as explicit oracle inputs
(`Except`/`Option` values or functions), since a driver call can return any
value or fail at any time.  Mutation counts tally affected rows
(inserts + updates + deleted rows), never mere statements.
-/

namespace Virtumancer

/-! ## Generic list-as-table helpers

`firstWhere` models GORM `First(...)` (first row matching a predicate),
`keepWhere`/`removeWhere` model `SELECT`/`DELETE ... WHERE`, and
`countWhere` counts the rows a `DELETE` affects. -/

def firstWhere {α : Type} (p : α → Prop) [DecidablePred p] : List α → Option α
  | [] => none
  | x :: xs => if p x then some x else firstWhere p xs

def keepWhere {α : Type} (p : α → Prop) [DecidablePred p] (l : List α) : List α :=
  l.filter (fun x => decide (p x))

def removeWhere {α : Type} (p : α → Prop) [DecidablePred p] (l : List α) : List α :=
  l.filter (fun x => decide ¬ p x)

def countWhere {α : Type} (p : α → Prop) [DecidablePred p] (l : List α) : Nat :=
  (keepWhere p l).length

/-! ## Libvirt domain states and the cache state enum

`golibvirt.DomainState` is an integer enumeration; the values below are the
constants of `github.com/digitalocean/go-libvirt` used by the code.  The
cache-side `storage.VMState` string enum (`ACTIVE`, `PAUSED`, `STOPPED`,
`SUSPENDED`) is not among the provided source files; its four values are
modelled from the spec (§3 data model) as an inductive type. -/

def domainNostate : Int := 0

def domainRunning : Int := 1

def domainBlocked : Int := 2

def domainPaused : Int := 3

def domainShutdown : Int := 4

def domainShutoff : Int := 5

def domainCrashed : Int := 6

def domainPmsuspended : Int := 7

/-- Modelled from the spec: the `storage.VMState` enum,
`state ∈ {ACTIVE, PAUSED, STOPPED, SUSPENDED}` (§3).  The defining Go file
is not among the sources; only the four constant names are taken from the
spec, every use of them below follows `host_service.go`. -/
inductive VMState where
  | active
  | paused
  | stopped
  | suspended
  deriving Repr, DecidableEq

/-- `mapLibvirtStateToVMState` from `host_service.go`: translates libvirt's
integer state to the cache's four-value state. -/
def mapLibvirtStateToVMState (state : Int) : VMState :=
  if state = domainRunning then .active
  else if state = domainPaused then .paused
  else if state = domainShutdown ∨ state = domainShutoff ∨ state = domainCrashed then .stopped
  else if state = domainPmsuspended then .suspended
  else .stopped

/-! ## Console proxy target resolution (console package,
`HandleConsole` / `HandleSpiceConsole`)

The Go string manipulation is embedded over `List Char`:
`breakAtChar` is `strings.SplitN(s, sep, 2)` (a `some` result corresponds to
`len(parts) > 1`), `takeUntil` is `strings.Split(s, "/")[0]`, and
`goSplitHostPort` is `net.SplitHostPort` (whose error the Go code ignores,
leaving an empty host). -/

def breakAtChar (c : Char) : List Char → Option (List Char × List Char)
  | [] => none
  | x :: xs =>
    if x = c then some ([], xs)
    else
      match breakAtChar c xs with
      | some (a, b) => some (x :: a, b)
      | none => none

def takeUntil (c : Char) : List Char → List Char
  | [] => []
  | x :: xs => if x = c then [] else x :: takeUntil c xs

/-- `net.SplitHostPort`: split at the last colon; a bracketed host has its
brackets stripped; a non-bracketed host containing a further colon, or a
string with no colon at all, is an error — the Go callers ignore the error
and are left with empty strings. -/
def goSplitHostPort (hostport : List Char) : List Char × List Char :=
  match breakAtChar ':' hostport.reverse with
  | none => ([], [])
  | some (revPort, revHost) =>
    let host := revHost.reverse
    let port := revPort.reverse
    if host.headD ' ' = '[' then
      if host.getLast? = some ']' then ((host.drop 1).dropLast, port) else ([], [])
    else if ':' ∈ host then ([], [])
    else (host, port)

/-- The host-address extraction both console handlers perform on the stored
URI: `strings.SplitN(uri, "@", 2)`; on a hit, take the segment before the
first `/`, and strip a port with `net.SplitHostPort` when a colon is
present.  `none` models the handler logging and returning without dialing
(`len(parts) <= 1`). -/
def extractHostFromURI (uri : String) : Option String :=
  match breakAtChar '@' uri.toList with
  | none => none
  | some (_, tail) =>
    let hostPart := takeUntil '/' tail
    if ':' ∈ hostPart then some (String.mk (goSplitHostPort hostPart).1)
    else some (String.mk hostPart)

/-- Listen-address resolution shared by `HandleConsole` and
`HandleSpiceConsole`: a local or unspecified listen address is replaced by
the host extracted from the stored URI; anything else is used verbatim. -/
def resolveListenHost (listen uri : String) : Option String :=
  if listen = "" ∨ listen = "127.0.0.1" ∨ listen = "0.0.0.0" ∨ listen = "::" then
    extractHostFromURI uri
  else some listen

/-- The TCP address the proxy dials: resolved host joined with the selected
graphics port (`fmt.Sprintf("%s:%s", host, port)`). -/
def consoleTarget (listen port uri : String) : Option String :=
  (resolveListenHost listen uri).map (fun h => h ++ ":" ++ port)

/-- One `devices/graphics` element of the domain XML, as both handlers
unmarshal it. -/
structure GraphicsXML where
  type : String
  port : String
  tlsPort : String
  listen : String
  deriving Repr, DecidableEq

/-- `HandleConsole` port/listen selection: first `vnc`-typed element; an
empty or `-1` port aborts the proxy. -/
def vncConsoleTarget (gs : List GraphicsXML) (uri : String) : Option String :=
  match firstWhere (fun g => g.type.toLower = "vnc") gs with
  | none => none
  | some g =>
    if g.port = "" then none
    else if g.port = "-1" then none
    else consoleTarget g.listen g.port uri

/-- `HandleSpiceConsole` port/listen selection: first `spice`-typed element,
preferring `tlsPort` when present and not `-1`. -/
def spiceConsoleTarget (gs : List GraphicsXML) (uri : String) : Option String :=
  match firstWhere (fun g => g.type.toLower = "spice") gs with
  | none => none
  | some g =>
    let port :=
      if g.tlsPort ≠ "" ∧ g.tlsPort ≠ "-1" then g.tlsPort
      else if g.port ≠ "" ∧ g.port ≠ "-1" then g.port
      else ""
    if port = "" then none else consoleTarget g.listen port uri

/-! ## Libvirt driver data model (`internal/libvirt/connector.go`) -/

/-- `libvirt.GraphicsInfo`. -/
structure GraphicsInfo where
  vnc : Bool
  spice : Bool
  deriving Repr, DecidableEq

/-- `libvirt.DiskInfo` — the fields the embedded code paths read.  `path`
is the unified `source/file`-or-`source/dev` path. -/
structure DiskInfo where
  device : String
  path : String
  driverType : String
  targetDev : String
  targetBus : String
  deriving Repr, DecidableEq

/-- `libvirt.NetworkInfo` — the fields the embedded code paths read. -/
structure NetworkInfo where
  macAddress : String
  sourceBridge : String
  modelType : String
  targetDev : String
  deriving Repr, DecidableEq

/-- `libvirt.HardwareInfo`. -/
structure HardwareInfo where
  disks : List DiskInfo
  networks : List NetworkInfo
  deriving Repr, DecidableEq

/-- `libvirt.VMInfo` — the fields `syncSingleVM` reads.  `maxMem` is in KiB
as returned by `DomainGetInfo`. -/
structure VMInfo where
  uuid : String
  name : String
  state : Int
  maxMem : Nat
  vcpu : Nat
  graphics : GraphicsInfo
  deriving Repr, DecidableEq

/-- `libvirt.DomainDiskStats` (int64 counters). -/
structure DomainDiskStats where
  device : String
  readBytes : Int
  writeBytes : Int
  deriving Repr, DecidableEq

/-- `libvirt.DomainNetworkStats` (int64 counters). -/
structure DomainNetworkStats where
  device : String
  readBytes : Int
  writeBytes : Int
  deriving Repr, DecidableEq

/-- `libvirt.VMStats`. -/
structure VMStats where
  state : Int
  memory : Nat
  maxMem : Nat
  vcpu : Nat
  cpuTime : Nat
  diskStats : List DomainDiskStats
  netStats : List DomainNetworkStats
  deriving Repr, DecidableEq

/-- The ways a driver call fails, used as an oracle input: the pool has no
entry for the host (`GetConnection`), `DomainLookupByName` missed, or some
other RPC on the established handle failed. -/
inductive DriverErr where
  | notConnected
  | lookupFailed
  | rpcFailed
  deriving Repr, DecidableEq

/-! ## `Connector.GetDomainStats`

The per-device counter RPCs (`DomainBlockStats`, `DomainInterfaceStats`)
are oracle functions returning `none` on failure — the Go loop skips such
a device with a logged warning. -/

/-- One iteration of the disk-stats loop: skip an empty target name, skip a
failed `DomainBlockStats`, otherwise record `(read_bytes, write_bytes)`. -/
def diskStatRead (blockStats : String → Option (Int × Int)) (d : DiskInfo) :
    Option DomainDiskStats :=
  if d.targetDev = "" then none
  else
    match blockStats d.targetDev with
    | none => none
    | some rw => some ⟨d.targetDev, rw.1, rw.2⟩

/-- One iteration of the interface-stats loop. -/
def netStatRead (ifaceStats : String → Option (Int × Int)) (i : NetworkInfo) :
    Option DomainNetworkStats :=
  if i.targetDev = "" then none
  else
    match ifaceStats i.targetDev with
    | none => none
    | some rw => some ⟨i.targetDev, rw.1, rw.2⟩

/-- `Connector.GetDomainStats` after the lookup and
`DomainGetState`/`DomainGetInfo` RPCs succeeded (their results are the
`state`/`maxMem`/`memory`/`vcpu`/`cpuTime` arguments; `disks`/`ifaces` are
the devices parsed from the domain XML). -/
def getDomainStats (state : Int) (maxMem memory vcpu cpuTime : Nat)
    (disks : List DiskInfo) (ifaces : List NetworkInfo)
    (blockStats ifaceStats : String → Option (Int × Int)) : VMStats :=
  if state ≠ domainRunning then
    { state := state, memory := 0, maxMem := maxMem, vcpu := vcpu, cpuTime := 0,
      diskStats := [], netStats := [] }
  else
    { state := state, memory := memory, maxMem := maxMem, vcpu := vcpu,
      cpuTime := cpuTime,
      diskStats := disks.filterMap (diskStatRead blockStats),
      netStats := ifaces.filterMap (netStatRead ifaceStats) }

/-! ## The relational cache (`internal/storage` rows used by the embedded
code paths)

Each table is a list of rows; `id` is the GORM surrogate key, handed out
by the `nextID` allocator of `DB`.  Only the columns the embedded code
reads or writes are modelled. -/

/-- `storage.Host`. -/
structure Host where
  id : String
  uri : String
  deriving Repr, DecidableEq

/-- `storage.VirtualMachine` as `host_service.go` uses it: `uuid` is the
internal UUID (`UUID` column, globally unique), `domainUUID` the
hypervisor-assigned one. -/
structure VirtualMachine where
  id : Nat
  hostID : String
  name : String
  uuid : String
  domainUUID : String
  state : VMState
  vcpuCount : Nat
  memoryBytes : Nat
  deriving Repr, DecidableEq

/-- `storage.Volume` (columns written by `syncVMHardware`). -/
structure Volume where
  id : Nat
  name : String
  format : String
  volType : String
  deriving Repr, DecidableEq

/-- `storage.VolumeAttachment`. -/
structure VolumeAttachment where
  id : Nat
  vmID : Nat
  volumeID : Nat
  deviceName : String
  busType : String
  deriving Repr, DecidableEq

/-- `storage.Network`. -/
structure Network where
  id : Nat
  hostID : String
  name : String
  uuid : String
  bridgeName : String
  mode : String
  deriving Repr, DecidableEq

/-- `storage.Port` (keyed by MAC address). -/
structure Port where
  id : Nat
  vmID : Nat
  macAddress : String
  deviceName : String
  modelName : String
  deriving Repr, DecidableEq

/-- `storage.PortBinding`. -/
structure PortBinding where
  id : Nat
  portID : Nat
  networkID : Nat
  deriving Repr, DecidableEq

/-- `storage.GraphicsDevice`. -/
structure GraphicsDevice where
  id : Nat
  gfxType : String
  modelName : String
  deriving Repr, DecidableEq

/-- `storage.GraphicsDeviceAttachment`. -/
structure GraphicsDeviceAttachment where
  id : Nat
  vmID : Nat
  graphicsDeviceID : Nat
  deriving Repr, DecidableEq

/-- The store: one list per table plus the surrogate-id allocator. -/
structure DB where
  hosts : List Host
  vms : List VirtualMachine
  volumes : List Volume
  volumeAttachments : List VolumeAttachment
  networks : List Network
  ports : List Port
  portBindings : List PortBinding
  graphicsDevices : List GraphicsDevice
  graphicsDeviceAttachments : List GraphicsDeviceAttachment
  nextID : Nat
  deriving Repr, DecidableEq

def emptyDB : DB :=
  { hosts := [], vms := [], volumes := [], volumeAttachments := [], networks := [],
    ports := [], portBindings := [], graphicsDevices := [],
    graphicsDeviceAttachments := [], nextID := 1 }

/-! ## Hardware sync (`HostService.syncVMHardware`)

Mutation counts tally affected rows: each insert or update is 1, each
delete counts the rows it removes.  GORM's `FirstOrCreate` inserts only on
a miss; `Where(...).Assign(...).FirstOrCreate` updates the found row (or
inserts), so a found `Port` still costs one update.  `uuid.NewSHA1` over
`host:bridge` is modelled as an injective deterministic encoding. -/

def networkUUID (hostID bridge : String) : String :=
  "uuid-v5:" ++ hostID ++ ":" ++ bridge

/-- One iteration of the disk loop: upsert `Volume` by path, then insert a
fresh `VolumeAttachment` when the volume's id is non-zero. -/
def syncDiskStep (vmID : Nat) (acc : DB × Nat) (disk : DiskInfo) : DB × Nat :=
  let (db, m) := acc
  match firstWhere (fun v : Volume => v.name = disk.path) db.volumes with
  | some vol =>
    if vol.id ≠ 0 then
      let att : VolumeAttachment :=
        ⟨db.nextID, vmID, vol.id, disk.targetDev, disk.targetBus⟩
      ({ db with
          volumeAttachments := db.volumeAttachments ++ [att],
          nextID := db.nextID + 1 }, m + 1)
    else (db, m)
  | none =>
    let vol : Volume := ⟨db.nextID, disk.path, disk.driverType, "DISK"⟩
    let db1 : DB := { db with volumes := db.volumes ++ [vol], nextID := db.nextID + 1 }
    if vol.id ≠ 0 then
      let att : VolumeAttachment :=
        ⟨db1.nextID, vmID, vol.id, disk.targetDev, disk.targetBus⟩
      ({ db1 with
          volumeAttachments := db1.volumeAttachments ++ [att],
          nextID := db1.nextID + 1 }, m + 2)
    else (db1, m + 1)

/-- One iteration of the interface loop: upsert `Network` by deterministic
UUID, upsert `Port` by MAC (re-assigning owner and device fields — one
update even when found), then insert the `PortBinding` if absent. -/
def syncNetStep (hostID : String) (vmID : Nat) (acc : DB × Nat)
    (net : NetworkInfo) : DB × Nat :=
  let (db, m) := acc
  let nuuid := networkUUID hostID net.sourceBridge
  let step1 : DB × Nat × Network :=
    match firstWhere (fun nw : Network => nw.uuid = nuuid) db.networks with
    | some nw => (db, m, nw)
    | none =>
      let nw : Network :=
        ⟨db.nextID, hostID, net.sourceBridge, nuuid, net.sourceBridge, "bridged"⟩
      ({ db with
          networks := db.networks ++ [nw],
          nextID := db.nextID + 1 }, m + 1, nw)
  let db1 := step1.1
  let m1 := step1.2.1
  let network := step1.2.2
  let step2 : DB × Nat × Port :=
    match firstWhere (fun pt : Port => pt.macAddress = net.macAddress) db1.ports with
    | some pt =>
      let pt' : Port :=
        { pt with vmID := vmID, deviceName := net.targetDev, modelName := net.modelType }
      ({ db1 with
          ports := db1.ports.map (fun q => if q.id = pt.id then pt' else q) },
        m1 + 1, pt')
    | none =>
      let pt : Port := ⟨db1.nextID, vmID, net.macAddress, net.targetDev, net.modelType⟩
      ({ db1 with ports := db1.ports ++ [pt], nextID := db1.nextID + 1 }, m1 + 1, pt)
  let db2 := step2.1
  let m2 := step2.2.1
  let port := step2.2.2
  if network.id ≠ 0 ∧ port.id ≠ 0 then
    match firstWhere
        (fun b : PortBinding => b.portID = port.id ∧ b.networkID = network.id)
        db2.portBindings with
    | some _ => (db2, m2)
    | none =>
      let b : PortBinding := ⟨db2.nextID, port.id, network.id⟩
      ({ db2 with
          portBindings := db2.portBindings ++ [b],
          nextID := db2.nextID + 1 }, m2 + 1)
  else (db2, m2)

/-- `HostService.syncVMHardware`: clear this VM's `PortBinding`s (via its
ports), `VolumeAttachment`s and `GraphicsDeviceAttachment`s, then re-create
from the live hardware, and upsert the graphics device plus a fresh
attachment. -/
def syncVMHardware (db : DB) (vmID : Nat) (hostID : String)
    (hardware : HardwareInfo) (graphics : GraphicsInfo) : DB × Nat :=
  let portIDs := (keepWhere (fun pt : Port => pt.vmID = vmID) db.ports).map Port.id
  let step0 : DB × Nat :=
    if portIDs ≠ [] then
      ({ db with
          portBindings :=
            removeWhere (fun b : PortBinding => b.portID ∈ portIDs) db.portBindings },
        countWhere (fun b : PortBinding => b.portID ∈ portIDs) db.portBindings)
    else (db, 0)
  let db0 := step0.1
  let m0 := step0.2
  let mVA := countWhere (fun a : VolumeAttachment => a.vmID = vmID) db0.volumeAttachments
  let db1 : DB := { db0 with
    volumeAttachments :=
      removeWhere (fun a : VolumeAttachment => a.vmID = vmID) db0.volumeAttachments }
  let mGA := countWhere (fun a : GraphicsDeviceAttachment => a.vmID = vmID)
      db1.graphicsDeviceAttachments
  let db2 : DB := { db1 with
    graphicsDeviceAttachments :=
      removeWhere (fun a : GraphicsDeviceAttachment => a.vmID = vmID)
        db1.graphicsDeviceAttachments }
  let acc1 := hardware.disks.foldl (syncDiskStep vmID) (db2, m0 + mVA + mGA)
  let acc2 := hardware.networks.foldl (syncNetStep hostID vmID) acc1
  let db3 := acc2.1
  let m3 := acc2.2
  let stepG : DB × Nat × Option GraphicsDevice :=
    if graphics.vnc then
      match firstWhere (fun g : GraphicsDevice => g.gfxType = "vnc") db3.graphicsDevices with
      | some g => (db3, m3, some g)
      | none =>
        let g : GraphicsDevice := ⟨db3.nextID, "vnc", "vnc"⟩
        ({ db3 with
            graphicsDevices := db3.graphicsDevices ++ [g],
            nextID := db3.nextID + 1 }, m3 + 1, some g)
    else if graphics.spice then
      match firstWhere (fun g : GraphicsDevice => g.gfxType = "spice") db3.graphicsDevices with
      | some g => (db3, m3, some g)
      | none =>
        let g : GraphicsDevice := ⟨db3.nextID, "spice", "qxl"⟩
        ({ db3 with
            graphicsDevices := db3.graphicsDevices ++ [g],
            nextID := db3.nextID + 1 }, m3 + 1, some g)
    else (db3, m3, none)
  let db4 := stepG.1
  let m4 := stepG.2.1
  match stepG.2.2 with
  | some g =>
    if g.id ≠ 0 then
      let att : GraphicsDeviceAttachment := ⟨db4.nextID, vmID, g.id⟩
      ({ db4 with
          graphicsDeviceAttachments := db4.graphicsDeviceAttachments ++ [att],
          nextID := db4.nextID + 1 }, m4 + 1)
    else (db4, m4)
  | none => (db4, m4)

/-- The `if hardwareInfo != nil` guard around the hardware sync in
`syncSingleVM`. -/
def applyHW (db : DB) (vmID : Nat) (hostID : String) (hwInfo : Option HardwareInfo)
    (graphics : GraphicsInfo) : DB × Nat :=
  match hwInfo with
  | none => (db, 0)
  | some hw => syncVMHardware db vmID hostID hw graphics

/-- The `newVMRecord` built in `syncSingleVM`'s not-found branch, with the
chosen internal UUID. -/
def newVMRecord (db : DB) (hostID : String) (vmInfo : VMInfo) (newUUID : String) :
    VirtualMachine :=
  { id := db.nextID, hostID := hostID, name := vmInfo.name, uuid := newUUID,
    domainUUID := vmInfo.uuid, state := mapLibvirtStateToVMState vmInfo.state,
    vcpuCount := vmInfo.vcpu, memoryBytes := vmInfo.maxMem * 1024 }

/-- The outcome of `syncSingleVM`: `ok changed` or an error return. -/
inductive SyncResult where
  | ok (changed : Bool)
  | err
  deriving Repr, DecidableEq

/-- `HostService.syncSingleVM`.  `domInfo` is the `GetDomainInfo` result;
on ANY driver error the code prunes the `(host_id, name)` row if present
(returning `changed=true`) and otherwise returns an error.  `hwInfo` is the
`GetDomainHardware` result (`none` = failed, logged only).  `freshUUID`
stands for the `uuid.New()` draw used on a cross-host conflict.  Returns
the store, the number of affected rows, and the result. -/
def syncSingleVM (db : DB) (hostID vmName : String)
    (domInfo : Except DriverErr VMInfo) (hwInfo : Option HardwareInfo)
    (freshUUID : String) : DB × Nat × SyncResult :=
  match domInfo with
  | .error _ =>
    match firstWhere (fun v : VirtualMachine => v.hostID = hostID ∧ v.name = vmName)
        db.vms with
    | some dbVM =>
      ({ db with vms := removeWhere (fun v : VirtualMachine => v.id = dbVM.id) db.vms },
        1, .ok true)
    | none => (db, 0, .err)
  | .ok vmInfo =>
    match firstWhere
        (fun v : VirtualMachine => v.hostID = hostID ∧ v.domainUUID = vmInfo.uuid)
        db.vms with
    | none =>
      let conflict := firstWhere
        (fun v : VirtualMachine => v.domainUUID = vmInfo.uuid ∧ v.hostID ≠ hostID)
        db.vms
      let newUUID :=
        match conflict with
        | none => vmInfo.uuid
        | some _ => freshUUID
      let newVM : VirtualMachine := newVMRecord db hostID vmInfo newUUID
      let db1 : DB := { db with vms := db.vms ++ [newVM], nextID := db.nextID + 1 }
      let hw := applyHW db1 newVM.id hostID hwInfo vmInfo.graphics
      (hw.1, 1 + hw.2, .ok true)
    | some existing =>
      if existing.name ≠ vmInfo.name
          ∨ existing.state ≠ mapLibvirtStateToVMState vmInfo.state
          ∨ existing.vcpuCount ≠ vmInfo.vcpu
          ∨ existing.memoryBytes ≠ vmInfo.maxMem * 1024 then
        let updated : VirtualMachine :=
          { existing with
            name := vmInfo.name,
            state := mapLibvirtStateToVMState vmInfo.state,
            vcpuCount := vmInfo.vcpu, memoryBytes := vmInfo.maxMem * 1024 }
        let db1 : DB := { db with
          vms := db.vms.map (fun v => if v.id = existing.id then updated else v) }
        let hw := applyHW db1 existing.id hostID hwInfo vmInfo.graphics
        (hw.1, 1 + hw.2, .ok true)
      else
        let hw := applyHW db existing.id hostID hwInfo vmInfo.graphics
        (hw.1, hw.2, .ok false)

/-! ## Facade operations (`HostService`) -/

/-- Zero-value rows GORM leaves behind when a `Preload` finds nothing. -/
def defaultVolume : Volume := ⟨0, "", "", ""⟩

def defaultNetwork : Network := ⟨0, "", "", "", "", ""⟩

/-- `HostService.getVMHardwareFromDB`: `none` models the error return when
`First(&vm)` finds no `(host_id, name)` row; every other query error is
ignored by the code. -/
def getVMHardwareFromDB (db : DB) (hostID vmName : String) : Option HardwareInfo :=
  match firstWhere (fun v : VirtualMachine => v.hostID = hostID ∧ v.name = vmName)
      db.vms with
  | none => none
  | some vm =>
    let diskAtts :=
      keepWhere (fun a : VolumeAttachment => a.vmID = vm.id) db.volumeAttachments
    let disks := diskAtts.map (fun da =>
      let vol := (firstWhere (fun v : Volume => v.id = da.volumeID) db.volumes).getD
        defaultVolume
      ({ device := da.deviceName, path := vol.name, driverType := vol.format,
         targetDev := da.deviceName, targetBus := da.busType } : DiskInfo))
    let vmPorts := keepWhere (fun pt : Port => pt.vmID = vm.id) db.ports
    let nets := vmPorts.filterMap (fun pt =>
      match firstWhere (fun b : PortBinding => b.portID = pt.id) db.portBindings with
      | none => none
      | some b =>
        let nw := (firstWhere (fun nn : Network => nn.id = b.networkID) db.networks).getD
          defaultNetwork
        some ({ macAddress := pt.macAddress, sourceBridge := nw.bridgeName,
                modelType := pt.modelName, targetDev := pt.deviceName } : NetworkInfo))
    some { disks := disks, networks := nets }

structure HardwareSyncOut where
  db : DB
  publishedVMsChanged : Bool
  result : Option HardwareInfo
  deriving Repr, DecidableEq

/-- `HostService.GetVMHardwareAndTriggerSync`: run `syncSingleVM` (errors
are only logged; a change publishes `vms-changed`), then read the hardware
back from the store. -/
def getVMHardwareAndTriggerSync (db : DB) (hostID vmName : String)
    (domInfo : Except DriverErr VMInfo) (hwInfo : Option HardwareInfo)
    (freshUUID : String) : HardwareSyncOut :=
  let r := syncSingleVM db hostID vmName domInfo hwInfo freshUUID
  let published := match r.2.2 with | .ok c => c | .err => false
  { db := r.1, publishedVMsChanged := published,
    result := getVMHardwareFromDB r.1 hostID vmName }

/-- The `AddHost` return value: the saved `*storage.Host` or an error. -/
inductive AddHostResult where
  | ok (host : Host)
  | err
  deriving Repr, DecidableEq

structure AddHostOut where
  db : DB
  result : AddHostResult
  syncStarted : Bool
  publishedHostsChanged : Bool
  deriving Repr, DecidableEq

/-- `HostService.AddHost`: persist the host row (primary-key violation =
persist failure), then `Connector.AddHost` (its success is the `connectOK`
oracle); on connect failure the row is deleted again and the error
returned; on success a background `SyncVMsForHost` is started and
`hosts-changed` published. -/
def addHost (db : DB) (host : Host) (connectOK : Bool) : AddHostOut :=
  if (firstWhere (fun x : Host => x.id = host.id) db.hosts).isSome then
    { db := db, result := .err, syncStarted := false,
      publishedHostsChanged := false }
  else
    let db1 : DB := { db with hosts := db.hosts ++ [host] }
    if connectOK then
      { db := db1, result := .ok host, syncStarted := true,
        publishedHostsChanged := true }
    else
      { db := { db1 with
          hosts := removeWhere (fun x : Host => x.id = host.id) db1.hosts },
        result := .err, syncStarted := false, publishedHostsChanged := false }

structure RemoveHostOut where
  db : DB
  publishedHostsChanged : Bool
  deriving Repr, DecidableEq

/-- `HostService.RemoveHost`: best-effort driver disconnect (no store
effect), delete the host's `VirtualMachine` rows, delete the `Host` row,
publish `hosts-changed`. -/
def removeHost (db : DB) (hostID : String) : RemoveHostOut :=
  let db1 : DB := { db with
    vms := removeWhere (fun v : VirtualMachine => v.hostID = hostID) db.vms }
  let db2 : DB := { db1 with
    hosts := removeWhere (fun x : Host => x.id = hostID) db1.hosts }
  { db := db2, publishedHostsChanged := true }

/-- One iteration of the `syncAndListVMs` loop over the live domains: a
`syncSingleVM` error is logged and skipped, a change sets the aggregate
flag. -/
def syncOne (hostID : String) (getInfo : String → Except DriverErr VMInfo)
    (getHW : String → Option HardwareInfo) (fresh : String → String)
    (acc : DB × Bool) (vi : VMInfo) : DB × Bool :=
  let r := syncSingleVM acc.1 hostID vi.name (getInfo vi.name) (getHW vi.name)
    (fresh vi.name)
  match r.2.2 with
  | .ok c => (r.1, acc.2 || c)
  | .err => (r.1, acc.2)

/-- `HostService.syncAndListVMs` (= `reconcile_host`): sync every live
domain, then prune cached rows of this host whose `domain_uuid` is not in
the live set.  The driver is the `(getInfo, getHW)` oracle pair and
`fresh` supplies the `uuid.New()` draws. -/
def syncAndListVMs (db : DB) (hostID : String) (live : List VMInfo)
    (getInfo : String → Except DriverErr VMInfo)
    (getHW : String → Option HardwareInfo) (fresh : String → String) : DB × Bool :=
  let acc := live.foldl (syncOne hostID getInfo getHW fresh) (db, false)
  let liveUUIDs := live.map (fun vi => vi.uuid)
  let pruned := countWhere
    (fun v : VirtualMachine => v.hostID = hostID ∧ v.domainUUID ∉ liveUUIDs) acc.1.vms
  let db2 : DB := { acc.1 with
    vms := removeWhere
      (fun v : VirtualMachine => v.hostID = hostID ∧ v.domainUUID ∉ liveUUIDs)
      acc.1.vms }
  (db2, acc.2 || decide (0 < pruned))

/-- The cross-host internal-UUID invariant (spec I2) over a row list. -/
def uuidsDistinctAcrossHosts (l : List VirtualMachine) : Prop :=
  ∀ v ∈ l, ∀ w ∈ l, v.hostID ≠ w.hostID → v.domainUUID = w.domainUUID → v.uuid ≠ w.uuid

instance (l : List VirtualMachine) : Decidable (uuidsDistinctAcrossHosts l) := by
  unfold uuidsDistinctAcrossHosts
  infer_instance

/-! ## `MonitoringManager.pollVmStats` — one tick

The subscription map is modelled by its key set (keys are the
`"hostId:vmName"` strings).  One tick: call `GetDomainStats`; on failure
substitute `&libvirt.VMStats{State: golibvirt.DomainShutoff}` (all other
fields Go zero values); store it as the subscription's last-known stats;
broadcast a `vm-stats-updated` message; if the state is not
`DomainRunning`, delete the subscription entry and return from the
goroutine. -/

structure PollTickOut where
  lastKnownStats : VMStats
  publishedType : String
  publishedStats : VMStats
  subscriptionsAfter : List String
  exited : Bool
  deriving Repr, DecidableEq

def pollVmStatsTick (hostID vmName : String) (subscriptions : List String)
    (statsResult : Except DriverErr VMStats) : PollTickOut :=
  let stats :=
    match statsResult with
    | .ok s => s
    | .error _ =>
      { state := domainShutoff, memory := 0, maxMem := 0, vcpu := 0, cpuTime := 0,
        diskStats := [], netStats := [] }
  let key := hostID ++ ":" ++ vmName
  if stats.state ≠ domainRunning then
    { lastKnownStats := stats, publishedType := "vm-stats-updated",
      publishedStats := stats,
      subscriptionsAfter := removeWhere (fun k => k = key) subscriptions,
      exited := true }
  else
    { lastKnownStats := stats, publishedType := "vm-stats-updated",
      publishedStats := stats, subscriptionsAfter := subscriptions, exited := false }

/-- A one-row store used to instantiate C1: host `h2` already caches the
domain UUID `u1`. -/
def c1row : VirtualMachine := ⟨1, "h2", "vmx", "u1", "u1", .active, 1, 1048576⟩

def c1db : DB := { emptyDB with vms := [c1row], nextID := 2 }

def c1vi : VMInfo := ⟨"u1", "vm1", domainRunning, 1024, 1, ⟨false, false⟩⟩

/-- The C2 store: host `h1` caches `vm1` (running, 2 vcpus, 2 GiB KiB
memory) with a VNC graphics device and its attachment; no disks or NICs. -/
def c2vm : VirtualMachine := ⟨1, "h1", "vm1", "u1", "u1", .active, 2, 2097152⟩

def c2db : DB := { emptyDB with
  vms := [c2vm],
  graphicsDevices := [⟨2, "vnc", "vnc"⟩],
  graphicsDeviceAttachments := [⟨3, 1, 2⟩],
  nextID := 4 }

/-- The identical live view of `c2vm`: same name, running state, vcpus,
memory (2048 KiB · 1024), no disks or NICs, VNC graphics. -/
def c2vi : VMInfo := ⟨"u1", "vm1", domainRunning, 2048, 2, ⟨true, false⟩⟩

def c2hw : HardwareInfo := ⟨[], []⟩

/-- The C3 store: a single cached row for `(h1, vm1)`. -/
def c3db : DB := { emptyDB with
  vms := [⟨1, "h1", "vm1", "u1", "u1", .active, 2, 2097152⟩], nextID := 2 }

/-- The C4 counterexample inputs: one live VM with a single bridged NIC. -/
def c4host : Host := ⟨"h1", "qemu+ssh://root@kvm1.example/system"⟩

def c4vi : VMInfo := ⟨"u1", "vm1", domainRunning, 1024, 1, ⟨false, false⟩⟩

def c4hw : HardwareInfo := ⟨[], [⟨"52:54:00:aa:bb:cc", "br0", "virtio", "vnet0"⟩]⟩

/-! ## Theorems -/

theorem firstWhere_eq_none {α : Type} {p : α → Prop} [DecidablePred p] {l : List α} :
    firstWhere p l = none ↔ ∀ x ∈ l, ¬ p x := by
  induction l with
  | nil => simp [firstWhere]
  | cons x xs ih =>
    by_cases hx : p x <;> simp [firstWhere, hx, ih]

theorem firstWhere_mem {α : Type} {p : α → Prop} [DecidablePred p] {l : List α} {a : α}
    (h : firstWhere p l = some a) : a ∈ l := by
  induction l with
  | nil => simp [firstWhere] at h
  | cons x xs ih =>
    by_cases hx : p x
    · simp [firstWhere, hx] at h; simp [h]
    · simp [firstWhere, hx] at h
      exact List.mem_cons_of_mem _ (ih h)

theorem firstWhere_prop {α : Type} {p : α → Prop} [DecidablePred p] {l : List α} {a : α}
    (h : firstWhere p l = some a) : p a := by
  induction l with
  | nil => simp [firstWhere] at h
  | cons x xs ih =>
    by_cases hx : p x
    · simp [firstWhere, hx] at h; exact h ▸ hx
    · simp [firstWhere, hx] at h; exact ih h

theorem mem_keepWhere {α : Type} {p : α → Prop} [DecidablePred p] {l : List α} {x : α} :
    x ∈ keepWhere p l ↔ x ∈ l ∧ p x := by
  simp [keepWhere, List.mem_filter]

theorem mem_removeWhere {α : Type} {p : α → Prop} [DecidablePred p] {l : List α} {x : α} :
    x ∈ removeWhere p l ↔ x ∈ l ∧ ¬ p x := by
  simp [removeWhere, List.mem_filter]

theorem removeWhere_eq_self {α : Type} {p : α → Prop} [DecidablePred p] {l : List α}
    (h : ∀ x ∈ l, ¬ p x) : removeWhere p l = l := by
  induction l with
  | nil => rfl
  | cons x xs ih =>
    have hx := h x (List.mem_cons_self x xs)
    have ih' := ih (fun y hy => h y (List.mem_cons_of_mem _ hy))
    simp only [removeWhere, List.filter_cons] at ih' ⊢
    simp [hx, ih']
    exact fun a ha => h a (List.mem_cons_of_mem _ ha)

theorem removeWhere_append {α : Type} {p : α → Prop} [DecidablePred p] (a b : List α) :
    removeWhere p (a ++ b) = removeWhere p a ++ removeWhere p b := by
  simp [removeWhere, List.filter_append]

theorem breakAtChar_append_cons (c : Char) (a b : List Char) (ha : c ∉ a) :
    breakAtChar c (a ++ c :: b) = some (a, b) := by
  induction a with
  | nil => simp [breakAtChar]
  | cons x xs ih =>
    have hxc : x ≠ c := fun h => ha (h ▸ List.mem_cons_self x xs)
    have ih' := ih (fun h => ha (List.mem_cons_of_mem _ h))
    simp [breakAtChar, hxc, ih']

theorem takeUntil_append_cons (c : Char) (a b : List Char) (ha : c ∉ a) :
    takeUntil c (a ++ c :: b) = a := by
  induction a with
  | nil => simp [takeUntil]
  | cons x xs ih =>
    have hxc : x ≠ c := fun h => ha (h ▸ List.mem_cons_self x xs)
    have ih' := ih (fun h => ha (List.mem_cons_of_mem _ h))
    simp [takeUntil, hxc, ih']

theorem takeUntil_of_not_mem (c : Char) (a : List Char) (ha : c ∉ a) :
    takeUntil c a = a := by
  induction a with
  | nil => rfl
  | cons x xs ih =>
    have hxc : x ≠ c := fun h => ha (h ▸ List.mem_cons_self x xs)
    have ih' := ih (fun h => ha (List.mem_cons_of_mem _ h))
    simp [takeUntil, hxc, ih']

theorem goSplitHostPort_simple (h p : List Char) (hh : ':' ∉ h) (hp : ':' ∉ p)
    (hbr : h.headD ' ' ≠ '[') :
    goSplitHostPort (h ++ ':' :: p) = (h, p) := by
  unfold goSplitHostPort
  have hrev : (h ++ ':' :: p).reverse = p.reverse ++ ':' :: h.reverse := by
    simp
  have hpr : ':' ∉ p.reverse := by simpa using hp
  rw [hrev, breakAtChar_append_cons ':' p.reverse h.reverse hpr]
  have hbr2 : h.head?.getD ' ' ≠ '[' := by
    cases h
    · decide
    · simpa using hbr
  simp [hbr2, hh]

theorem filterMap_diskStatRead_devices (blockStats : String → Option (Int × Int))
    (disks : List DiskInfo)
    (hok : ∀ d ∈ disks, d.targetDev ≠ "" → (blockStats d.targetDev).isSome) :
    (disks.filterMap (diskStatRead blockStats)).map (fun s => s.device)
      = (keepWhere (fun d => d.targetDev ≠ "") disks).map (fun d => d.targetDev) := by
  induction disks with
  | nil => rfl
  | cons d ds ih =>
    have ih' := ih (fun x hx => hok x (List.mem_cons_of_mem _ hx))
    by_cases hdev : d.targetDev = ""
    · simp [diskStatRead, hdev, keepWhere, List.filter_cons, ih']
    · have hsome := hok d (List.mem_cons_self d ds) hdev
      match hmatch : blockStats d.targetDev with
      | none => rw [hmatch] at hsome; simp at hsome
      | some rw =>
        simp [diskStatRead, hdev, hmatch, keepWhere, List.filter_cons] at ih' ⊢
        exact ih'

theorem filterMap_netStatRead_devices (ifaceStats : String → Option (Int × Int))
    (ifaces : List NetworkInfo)
    (hok : ∀ i ∈ ifaces, i.targetDev ≠ "" → (ifaceStats i.targetDev).isSome) :
    (ifaces.filterMap (netStatRead ifaceStats)).map (fun s => s.device)
      = (keepWhere (fun i => i.targetDev ≠ "") ifaces).map (fun i => i.targetDev) := by
  induction ifaces with
  | nil => rfl
  | cons d ds ih =>
    have ih' := ih (fun x hx => hok x (List.mem_cons_of_mem _ hx))
    by_cases hdev : d.targetDev = ""
    · simp [netStatRead, hdev, keepWhere, List.filter_cons, ih']
    · have hsome := hok d (List.mem_cons_self d ds) hdev
      match hmatch : ifaceStats d.targetDev with
      | none => rw [hmatch] at hsome; simp at hsome
      | some rw =>
        simp [netStatRead, hdev, hmatch, keepWhere, List.filter_cons] at ih' ⊢
        exact ih'

/-- C6: for a non-running domain, `GetDomainStats` returns the current
state and the capacity fields with zero counters and empty device lists;
for a running domain whose per-device RPCs succeed, it returns counters for
exactly the devices with a non-empty target name. -/
theorem getDomainStats_spec (state : Int) (maxMem memory vcpu cpuTime : Nat)
    (disks : List DiskInfo) (ifaces : List NetworkInfo)
    (blockStats ifaceStats : String → Option (Int × Int)) :
    (state ≠ domainRunning →
      getDomainStats state maxMem memory vcpu cpuTime disks ifaces blockStats ifaceStats
        = { state := state, memory := 0, maxMem := maxMem, vcpu := vcpu, cpuTime := 0,
            diskStats := [], netStats := [] }) ∧
    (state = domainRunning →
      (∀ d ∈ disks, d.targetDev ≠ "" → (blockStats d.targetDev).isSome) →
      (∀ i ∈ ifaces, i.targetDev ≠ "" → (ifaceStats i.targetDev).isSome) →
      (let out := getDomainStats state maxMem memory vcpu cpuTime disks ifaces
          blockStats ifaceStats
       out.state = state ∧ out.memory = memory ∧ out.maxMem = maxMem ∧
       out.vcpu = vcpu ∧ out.cpuTime = cpuTime ∧
       out.diskStats.map (fun s => s.device)
         = (keepWhere (fun d => d.targetDev ≠ "") disks).map (fun d => d.targetDev) ∧
       out.netStats.map (fun s => s.device)
         = (keepWhere (fun i => i.targetDev ≠ "") ifaces).map (fun i => i.targetDev))) := by
  constructor
  · intro hne
    simp [getDomainStats, hne]
  · intro heq hdisk hiface
    subst heq
    intro out
    refine ⟨rfl, rfl, rfl, rfl, rfl, ?_, ?_⟩
    · exact filterMap_diskStatRead_devices blockStats disks hdisk
    · exact filterMap_netStatRead_devices ifaceStats ifaces hiface

/-- Witness for C6: a stopped domain yields the zero-counter sample, and a
running domain with one named disk, one unnamed disk and one named
interface reports exactly the named devices. -/
theorem getDomainStats_spec_witness :
    getDomainStats domainShutoff 2048 512 2 77
        [⟨"disk", "/img/a.qcow2", "qcow2", "vda", "virtio"⟩] [] (fun _ => none) (fun _ => none)
      = { state := domainShutoff, memory := 0, maxMem := 2048, vcpu := 2, cpuTime := 0,
          diskStats := [], netStats := [] } ∧
    (getDomainStats domainRunning 2048 512 2 77
        [⟨"disk", "/img/a.qcow2", "qcow2", "vda", "virtio"⟩,
         ⟨"disk", "/img/b.qcow2", "qcow2", "", "virtio"⟩]
        [⟨"52:54:00:00:00:01", "br0", "virtio", "vnet0"⟩]
        (fun _ => some (10, 20)) (fun _ => some (30, 40))).diskStats.map
          (fun s => s.device) = ["vda"] := by
  constructor
  · exact (getDomainStats_spec domainShutoff 2048 512 2 77
      [⟨"disk", "/img/a.qcow2", "qcow2", "vda", "virtio"⟩] [] (fun _ => none)
      (fun _ => none)).1 (by decide)
  · have h := (getDomainStats_spec domainRunning 2048 512 2 77
      [⟨"disk", "/img/a.qcow2", "qcow2", "vda", "virtio"⟩,
       ⟨"disk", "/img/b.qcow2", "qcow2", "", "virtio"⟩]
      [⟨"52:54:00:00:00:01", "br0", "virtio", "vnet0"⟩]
      (fun _ => some (10, 20)) (fun _ => some (30, 40))).2 rfl
      (by intro d _ _; rfl) (by intro i _ _; rfl)
    exact h.2.2.2.2.2.1.trans (by decide)

/-! ## The hardware sync never touches the `virtual_machines` table -/

theorem syncDiskStep_vms (vmID : Nat) (acc : DB × Nat) (d : DiskInfo) :
    (syncDiskStep vmID acc d).1.vms = acc.1.vms := by
  obtain ⟨db, m⟩ := acc
  dsimp only [syncDiskStep]
  split <;> split <;> rfl

theorem syncNetStep_vms (hostID : String) (vmID : Nat) (acc : DB × Nat)
    (n : NetworkInfo) : (syncNetStep hostID vmID acc n).1.vms = acc.1.vms := by
  obtain ⟨db, m⟩ := acc
  dsimp only [syncNetStep]
  repeat' split
  all_goals rfl

theorem foldl_syncDiskStep_vms (vmID : Nat) (l : List DiskInfo) (acc : DB × Nat) :
    (l.foldl (syncDiskStep vmID) acc).1.vms = acc.1.vms := by
  induction l generalizing acc with
  | nil => rfl
  | cons d ds ih => rw [List.foldl_cons, ih, syncDiskStep_vms]

theorem foldl_syncNetStep_vms (hostID : String) (vmID : Nat) (l : List NetworkInfo)
    (acc : DB × Nat) : (l.foldl (syncNetStep hostID vmID) acc).1.vms = acc.1.vms := by
  induction l generalizing acc with
  | nil => rfl
  | cons n ns ih => rw [List.foldl_cons, ih, syncNetStep_vms]

theorem syncVMHardware_vms (db : DB) (vmID : Nat) (hostID : String)
    (hardware : HardwareInfo) (graphics : GraphicsInfo) :
    (syncVMHardware db vmID hostID hardware graphics).1.vms = db.vms := by
  dsimp only [syncVMHardware]
  repeat' split
  all_goals simp only [foldl_syncNetStep_vms, foldl_syncDiskStep_vms]

theorem applyHW_vms (db : DB) (vmID : Nat) (hostID : String)
    (hwInfo : Option HardwareInfo) (graphics : GraphicsInfo) :
    (applyHW db vmID hostID hwInfo graphics).1.vms = db.vms := by
  cases hwInfo with
  | none => rfl
  | some hw => exact syncVMHardware_vms db vmID hostID hw graphics

/-- C5: when the stats call fails on a tick, the poller substitutes a
synthetic sample whose state is `DomainShutoff` (the STOPPED cache state),
stores it as the last-known sample, publishes it as a `vm-stats-updated`
event, deletes the `(host, vm)` subscription entry (leaving every other
entry), and the polling task exits. -/
theorem pollVmStatsTick_failure (hostID vmName : String)
    (subscriptions : List String) (e : DriverErr) :
    let out := pollVmStatsTick hostID vmName subscriptions (.error e)
    out.lastKnownStats.state = domainShutoff ∧
    mapLibvirtStateToVMState out.lastKnownStats.state = .stopped ∧
    out.lastKnownStats.diskStats = [] ∧ out.lastKnownStats.netStats = [] ∧
    out.publishedType = "vm-stats-updated" ∧
    out.publishedStats = out.lastKnownStats ∧
    (hostID ++ ":" ++ vmName) ∉ out.subscriptionsAfter ∧
    (∀ k ∈ subscriptions, k ≠ hostID ++ ":" ++ vmName → k ∈ out.subscriptionsAfter) ∧
    out.exited = true := by
  intro out
  refine ⟨rfl, show mapLibvirtStateToVMState domainShutoff = .stopped by decide,
    rfl, rfl, rfl, rfl, ?_, ?_, rfl⟩
  · intro hmem
    have hmem' : (hostID ++ ":" ++ vmName)
        ∈ removeWhere (fun k => k = hostID ++ ":" ++ vmName) subscriptions := hmem
    exact (mem_removeWhere.mp hmem').2 rfl
  · intro k hk hne'
    show k ∈ removeWhere (fun kk => kk = hostID ++ ":" ++ vmName) subscriptions
    exact mem_removeWhere.mpr ⟨hk, hne'⟩

/-- Witness for C5: a failing tick with two subscriptions removes exactly
the polled VM's entry and exits. -/
theorem pollVmStatsTick_failure_witness :
    (pollVmStatsTick "h1" "vm1" ["h1:vm1", "h1:vm2"] (.error .rpcFailed)).exited = true ∧
    "h1:vm1" ∉ (pollVmStatsTick "h1" "vm1" ["h1:vm1", "h1:vm2"]
        (.error .rpcFailed)).subscriptionsAfter ∧
    "h1:vm2" ∈ (pollVmStatsTick "h1" "vm1" ["h1:vm1", "h1:vm2"]
        (.error .rpcFailed)).subscriptionsAfter := by
  have h := pollVmStatsTick_failure "h1" "vm1" ["h1:vm1", "h1:vm2"] .rpcFailed
  refine ⟨h.2.2.2.2.2.2.2.2, ?_, ?_⟩
  · have := h.2.2.2.2.2.2.1
    simpa using this
  · have := h.2.2.2.2.2.2.2.1 "h1:vm2" (by decide) (by decide)
    simpa using this

/-- C8: console proxy target resolution.  For a listen attribute that is
empty, `127.0.0.1`, `0.0.0.0` or `::`, the proxy dials the hostname taken
from the URI's `user@host[:port]` segment with any port stripped (first
conjunct: no port present; second: a port is stripped), joined with the
selected graphics port; any other listen value is dialed verbatim (third
conjunct); and the VNC handler feeds the first `vnc` graphics element's
port and listen value into exactly this resolution (fourth conjunct). -/
theorem consoleTarget_listen_resolution
    (listen port uri : String) (u hp rest h p : List Char)
    (hlisten : listen = "" ∨ listen = "127.0.0.1" ∨ listen = "0.0.0.0" ∨ listen = "::")
    (hu : '@' ∉ u) (hslash : '/' ∉ hp)
    (huri : uri.toList = u ++ '@' :: (hp ++ '/' :: rest)) :
    (':' ∉ hp → consoleTarget listen port uri = some (String.mk hp ++ ":" ++ port)) ∧
    ((hp = h ++ ':' :: p ∧ ':' ∉ h ∧ ':' ∉ p ∧ h.headD ' ' ≠ '[') →
      consoleTarget listen port uri = some (String.mk h ++ ":" ++ port)) ∧
    (∀ other : String,
      ¬(other = "" ∨ other = "127.0.0.1" ∨ other = "0.0.0.0" ∨ other = "::") →
      consoleTarget other port uri = some (other ++ ":" ++ port)) ∧
    (∀ (gs : List GraphicsXML) (g : GraphicsXML) (uri2 : String),
      firstWhere (fun gg => gg.type.toLower = "vnc") gs = some g →
      g.port ≠ "" → g.port ≠ "-1" →
      vncConsoleTarget gs uri2 = consoleTarget g.listen g.port uri2) := by
  have hbreak : breakAtChar '@' uri.toList = some (u, hp ++ '/' :: rest) := by
    rw [huri]; exact breakAtChar_append_cons '@' u _ hu
  have htake : takeUntil '/' (hp ++ '/' :: rest) = hp :=
    takeUntil_append_cons '/' hp rest hslash
  refine ⟨?_, ?_, ?_, ?_⟩
  · intro hcolon
    unfold consoleTarget resolveListenHost extractHostFromURI
    rw [if_pos hlisten, hbreak]
    simp only [htake, hcolon, if_false, Option.map_some']
  · rintro ⟨hhp, hh, hpcol, hbr⟩
    have hcolon : ':' ∈ hp := by
      rw [hhp]; exact List.mem_append_right _ (List.mem_cons_self _ _)
    unfold consoleTarget resolveListenHost extractHostFromURI
    rw [if_pos hlisten, hbreak]
    simp only [htake, hcolon, if_true, Option.map_some']
    rw [hhp, goSplitHostPort_simple h p hh hpcol hbr]
  · intro other hother
    unfold consoleTarget resolveListenHost
    rw [if_neg hother]
    rfl
  · intro gs g uri2 hfind hp1 hp2
    unfold vncConsoleTarget
    rw [hfind]
    simp [hp1, hp2]

/-- Witness for C8: the spec's worked example — listen `0.0.0.0`, VNC port
`5901`, stored URI `qemu+ssh://root@kvm1.example/system` resolves to
`kvm1.example:5901` — plus a verbatim non-local listen address. -/
theorem consoleTarget_listen_resolution_witness :
    consoleTarget "0.0.0.0" "5901" "qemu+ssh://root@kvm1.example/system"
      = some "kvm1.example:5901" ∧
    consoleTarget "192.168.7.5" "5901" "qemu+ssh://root@kvm1.example/system"
      = some "192.168.7.5:5901" := by
  have h := consoleTarget_listen_resolution "0.0.0.0" "5901"
      "qemu+ssh://root@kvm1.example/system"
      ("qemu+ssh://root".toList) ("kvm1.example".toList) ("system".toList) [] []
      (by decide) (by decide) (by decide) (by decide)
  refine ⟨(h.1 (by decide)).trans (by decide), h.2.2.1 "192.168.7.5" (by decide)⟩

/-- C1: when `syncSingleVM` finds no cache row for `(host_id, domain_uuid)`
it inserts a new row whose internal UUID is a fresh mint exactly when some
other host already holds the same `domain_uuid`, and the domain UUID itself
otherwise; consequently the cross-host internal-UUID distinctness invariant
(spec I2) is preserved.  Freshness of the random `uuid.New()` draw is the
hypothesis pair `hfreshDom`/`hfreshNew` (a v4 UUID colliding with an
existing UUID is the probabilistic event the code rules out). -/
theorem syncSingleVM_uuid_conflict (db : DB) (hostID vmName : String) (vi : VMInfo)
    (hwInfo : Option HardwareInfo) (freshUUID : String)
    (hns : firstWhere
      (fun v : VirtualMachine => v.hostID = hostID ∧ v.domainUUID = vi.uuid) db.vms
      = none)
    (hfreshDom : freshUUID ≠ vi.uuid)
    (hfreshNew : ∀ v ∈ db.vms, v.uuid ≠ freshUUID)
    (hI2 : uuidsDistinctAcrossHosts db.vms) :
    ∃ u : String,
      (syncSingleVM db hostID vmName (.ok vi) hwInfo freshUUID).1.vms
        = db.vms ++ [newVMRecord db hostID vi u] ∧
      ((∃ w ∈ db.vms, w.domainUUID = vi.uuid ∧ w.hostID ≠ hostID) →
        u = freshUUID ∧ u ≠ vi.uuid) ∧
      ((∀ w ∈ db.vms, ¬(w.domainUUID = vi.uuid ∧ w.hostID ≠ hostID)) →
        u = vi.uuid) ∧
      uuidsDistinctAcrossHosts
        (syncSingleVM db hostID vmName (.ok vi) hwInfo freshUUID).1.vms := by
  unfold syncSingleVM
  dsimp only
  rw [hns]
  cases hconf : firstWhere
      (fun v : VirtualMachine => v.domainUUID = vi.uuid ∧ v.hostID ≠ hostID) db.vms with
  | none =>
    have hnoconf : ∀ w ∈ db.vms, ¬(w.domainUUID = vi.uuid ∧ w.hostID ≠ hostID) :=
      firstWhere_eq_none.mp hconf
    refine ⟨vi.uuid, ?_, ?_, fun _ => rfl, ?_⟩
    · rw [applyHW_vms]
    · rintro ⟨w, hwmem, hdom, hne⟩
      exact absurd ⟨hdom, hne⟩ (hnoconf w hwmem)
    · rw [applyHW_vms]
      show uuidsDistinctAcrossHosts (db.vms ++ [newVMRecord db hostID vi vi.uuid])
      intro v hv w hw hne hdom
      rcases List.mem_append.mp hv with hv' | hv' <;>
        rcases List.mem_append.mp hw with hw' | hw'
      · exact hI2 v hv' w hw' hne hdom
      · rw [List.mem_singleton] at hw'
        subst hw'
        simp only [newVMRecord] at hne hdom
        exact absurd ⟨hdom, hne⟩ (hnoconf v hv')
      · rw [List.mem_singleton] at hv'
        subst hv'
        simp only [newVMRecord] at hne hdom
        exact absurd ⟨hdom.symm, fun hh => hne hh.symm⟩ (hnoconf w hw')
      · rw [List.mem_singleton] at hv' hw'
        subst hv'; subst hw'
        exact absurd rfl hne
  | some c =>
    have hcmem : c ∈ db.vms := firstWhere_mem hconf
    have hcprop := firstWhere_prop hconf
    refine ⟨freshUUID, ?_, fun _ => ⟨rfl, hfreshDom⟩, ?_, ?_⟩
    · rw [applyHW_vms]
    · intro hall
      exact absurd hcprop (hall c hcmem)
    · rw [applyHW_vms]
      show uuidsDistinctAcrossHosts (db.vms ++ [newVMRecord db hostID vi freshUUID])
      intro v hv w hw hne hdom
      rcases List.mem_append.mp hv with hv' | hv' <;>
        rcases List.mem_append.mp hw with hw' | hw'
      · exact hI2 v hv' w hw' hne hdom
      · rw [List.mem_singleton] at hw'
        subst hw'
        simp only [newVMRecord] at hne hdom ⊢
        exact hfreshNew v hv'
      · rw [List.mem_singleton] at hv'
        subst hv'
        simp only [newVMRecord] at hne hdom ⊢
        exact fun hh => hfreshNew w hw' hh.symm
      · rw [List.mem_singleton] at hv' hw'
        subst hv'; subst hw'
        exact absurd rfl hne

/-- Witness for C1: reconciling `vm1` on host `h1` while `h2` already holds
`domain_uuid = u1` inserts a row carrying the freshly minted internal UUID,
distinct from the domain UUID. -/
theorem syncSingleVM_uuid_conflict_witness :
    ∃ u : String,
      (syncSingleVM c1db "h1" "vm1" (.ok c1vi) none "fresh-uuid").1.vms
        = c1db.vms ++ [newVMRecord c1db "h1" c1vi u] ∧
      u = "fresh-uuid" ∧ u ≠ c1vi.uuid := by
  obtain ⟨u, hvms, hconf, _, _⟩ := syncSingleVM_uuid_conflict c1db "h1" "vm1" c1vi
    none "fresh-uuid" (by decide) (by decide) (by decide) (by decide)
  obtain ⟨hu, hne⟩ := hconf ⟨c1row, by decide, by decide, by decide⟩
  exact ⟨u, hvms, hu, hne⟩

/-- C2 (amended): reconciling a domain whose live name, state, vcpu count
and memory equal the cached row performs zero mutations against the
`virtual_machines` table and reports `changed = false`; the counterexample
`syncSingleVM_unchanged_still_mutates` shows the original claim's "no
insert, update, or delete against any table" is false, because the
attachment rows are deleted and re-inserted on every reconcile. -/
theorem syncSingleVM_unchanged_vm_row (db : DB) (hostID vmName : String)
    (vi : VMInfo) (hwInfo : Option HardwareInfo) (freshUUID : String)
    (existing : VirtualMachine)
    (hfound : firstWhere
      (fun v : VirtualMachine => v.hostID = hostID ∧ v.domainUUID = vi.uuid) db.vms
      = some existing)
    (hname : existing.name = vi.name)
    (hstate : existing.state = mapLibvirtStateToVMState vi.state)
    (hvcpu : existing.vcpuCount = vi.vcpu)
    (hmem : existing.memoryBytes = vi.maxMem * 1024) :
    (syncSingleVM db hostID vmName (.ok vi) hwInfo freshUUID).2.2 = .ok false ∧
    (syncSingleVM db hostID vmName (.ok vi) hwInfo freshUUID).1.vms = db.vms := by
  have hcond : ¬(existing.name ≠ vi.name
      ∨ existing.state ≠ mapLibvirtStateToVMState vi.state
      ∨ existing.vcpuCount ≠ vi.vcpu
      ∨ existing.memoryBytes ≠ vi.maxMem * 1024) := by
    simp [hname, hstate, hvcpu, hmem]
  unfold syncSingleVM
  dsimp only
  rw [hfound]
  dsimp only
  rw [if_neg hcond]
  exact ⟨rfl, applyHW_vms db existing.id hostID hwInfo vi.graphics⟩

/-- Counterexample to C2 as stated: with a live view identical to the
cache, `syncSingleVM` still performs two row mutations — it deletes the
`GraphicsDeviceAttachment` row and inserts a fresh one — even though it
reports `changed = false`. -/
theorem syncSingleVM_unchanged_still_mutates :
    (c2vm.name = c2vi.name ∧ c2vm.state = mapLibvirtStateToVMState c2vi.state ∧
      c2vm.vcpuCount = c2vi.vcpu ∧ c2vm.memoryBytes = c2vi.maxMem * 1024 ∧
      c2hw.disks = [] ∧ c2hw.networks = []) ∧
    (syncSingleVM c2db "h1" "vm1" (.ok c2vi) (some c2hw) "fresh").2.2 = .ok false ∧
    (syncSingleVM c2db "h1" "vm1" (.ok c2vi) (some c2hw) "fresh").2.1 = 2 ∧
    (syncSingleVM c2db "h1" "vm1" (.ok c2vi) (some c2hw) "fresh").2.1 ≠ 0 := by
  decide

/-- Witness for C2 (amended) at the concrete store `c2db`. -/
theorem syncSingleVM_unchanged_vm_row_witness :
    (syncSingleVM c2db "h1" "vm1" (.ok c2vi) (some c2hw) "fresh").2.2 = .ok false ∧
    (syncSingleVM c2db "h1" "vm1" (.ok c2vi) (some c2hw) "fresh").1.vms = c2db.vms :=
  syncSingleVM_unchanged_vm_row c2db "h1" "vm1" c2vi (some c2hw) "fresh" c2vm
    (by decide) (by decide) (by decide) (by decide) (by decide)

/-- C3 (amended): on ANY `GetDomainInfo` failure — the code does not
distinguish "domain does not exist" from other driver errors — the cached
`(host_id, name)` row, if present, is deleted and `changed = true` is
returned; only when no such row exists is an error returned with the store
untouched.  The counterexample `syncSingleVM_prunes_on_notConnected` shows
the original claim's "other failures leave the row unchanged and return an
error" is false. -/
theorem syncSingleVM_driver_error (db : DB) (hostID vmName : String)
    (e : DriverErr) (hwInfo : Option HardwareInfo) (freshUUID : String) :
    (∀ dbVM : VirtualMachine,
      firstWhere (fun v : VirtualMachine => v.hostID = hostID ∧ v.name = vmName) db.vms
        = some dbVM →
      syncSingleVM db hostID vmName (.error e) hwInfo freshUUID
        = ({ db with
            vms := removeWhere (fun v : VirtualMachine => v.id = dbVM.id) db.vms },
          1, .ok true)) ∧
    (firstWhere (fun v : VirtualMachine => v.hostID = hostID ∧ v.name = vmName) db.vms
        = none →
      syncSingleVM db hostID vmName (.error e) hwInfo freshUUID = (db, 0, .err)) := by
  constructor
  · intro dbVM h
    unfold syncSingleVM
    dsimp only
    rw [h]
  · intro h
    unfold syncSingleVM
    dsimp only
    rw [h]

/-- Counterexample to C3 as stated: when the driver call fails because the
host is NOT CONNECTED (not because the domain is absent), the code still
deletes the cached row and returns `changed = true` instead of leaving the
row unchanged and returning an error. -/
theorem syncSingleVM_prunes_on_notConnected :
    (syncSingleVM c3db "h1" "vm1" (.error .notConnected) none "fresh").2.2
      = .ok true ∧
    (syncSingleVM c3db "h1" "vm1" (.error .notConnected) none "fresh").1.vms = [] ∧
    (syncSingleVM c3db "h1" "vm1" (.error .notConnected) none "fresh").1.vms
      ≠ c3db.vms := by
  decide

/-- Witness for C3 (amended): both branches at concrete stores — pruning
with a cached row present, error with the row absent. -/
theorem syncSingleVM_driver_error_witness :
    syncSingleVM c3db "h1" "vm1" (.error .lookupFailed) none "fresh"
      = ({ c3db with vms := [] }, 1, .ok true) ∧
    syncSingleVM emptyDB "h1" "vm1" (.error .lookupFailed) none "fresh"
      = (emptyDB, 0, .err) := by
  constructor
  · have h := (syncSingleVM_driver_error c3db "h1" "vm1" .lookupFailed none "fresh").1
      ⟨1, "h1", "vm1", "u1", "u1", .active, 2, 2097152⟩ (by decide)
    exact h.trans (by decide)
  · exact (syncSingleVM_driver_error emptyDB "h1" "vm1" .lookupFailed none "fresh").2
      (by decide)

/-- C7: `AddHost` is atomic on connect failure — the persisted row is
deleted again and an error returned, leaving the store exactly as before;
on success the row remains, a background reconcile is started and
`hosts-changed` is published.  `connectOK` is the `Connector.AddHost`
outcome oracle; the hypothesis says the host id is new (the persist step
succeeds). -/
theorem addHost_connect_failure_atomic (db : DB) (host : Host)
    (hnew : ∀ x ∈ db.hosts, x.id ≠ host.id) :
    ((addHost db host false).db = db ∧
      (addHost db host false).result = .err ∧
      (addHost db host false).syncStarted = false ∧
      (addHost db host false).publishedHostsChanged = false) ∧
    ((addHost db host true).db.hosts = db.hosts ++ [host] ∧
      (addHost db host true).result = .ok host ∧
      (addHost db host true).syncStarted = true ∧
      (addHost db host true).publishedHostsChanged = true) := by
  have hfw : firstWhere (fun x : Host => x.id = host.id) db.hosts = none :=
    firstWhere_eq_none.mpr hnew
  have hroll : removeWhere (fun x : Host => x.id = host.id) (db.hosts ++ [host])
      = db.hosts := by
    rw [removeWhere_append, removeWhere_eq_self hnew]
    simp [removeWhere]
  constructor
  · unfold addHost
    rw [hfw]
    refine ⟨?_, rfl, rfl, rfl⟩
    show ({ db with
      hosts := removeWhere (fun x : Host => x.id = host.id)
        (db.hosts ++ [host]) } : DB) = db
    rw [hroll]
  · unfold addHost
    rw [hfw]
    exact ⟨rfl, rfl, rfl, rfl⟩

/-- Witness for C7 at a concrete store: adding `h9` to a one-host store
and failing to connect leaves the store unchanged; connecting keeps the
row, starts the background sync and publishes. -/
theorem addHost_connect_failure_atomic_witness :
    ((addHost { emptyDB with hosts := [⟨"h1", "qemu:///system"⟩] }
        ⟨"h9", "qemu+tcp://10.0.0.9/system"⟩ false).db
      = { emptyDB with hosts := [⟨"h1", "qemu:///system"⟩] } ∧
      (addHost { emptyDB with hosts := [⟨"h1", "qemu:///system"⟩] }
        ⟨"h9", "qemu+tcp://10.0.0.9/system"⟩ false).result = .err) ∧
    ((addHost { emptyDB with hosts := [⟨"h1", "qemu:///system"⟩] }
        ⟨"h9", "qemu+tcp://10.0.0.9/system"⟩ true).syncStarted = true ∧
      (addHost { emptyDB with hosts := [⟨"h1", "qemu:///system"⟩] }
        ⟨"h9", "qemu+tcp://10.0.0.9/system"⟩ true).publishedHostsChanged = true) := by
  have h := addHost_connect_failure_atomic
    { emptyDB with hosts := [⟨"h1", "qemu:///system"⟩] }
    ⟨"h9", "qemu+tcp://10.0.0.9/system"⟩ (by decide)
  exact ⟨⟨h.1.1, h.1.2.1⟩, ⟨h.2.2.2.1, h.2.2.2.2⟩⟩

theorem removeHost_hosts (db : DB) (hostID : String) :
    (removeHost db hostID).db.hosts
      = removeWhere (fun x : Host => x.id = hostID) db.hosts := rfl

theorem removeHost_vms (db : DB) (hostID : String) :
    (removeHost db hostID).db.vms
      = removeWhere (fun v : VirtualMachine => v.hostID = hostID) db.vms := rfl

/-- C4 (amended): after `add_host(h)`, `reconcile_host(h)`, `remove_host(h)`
no `Host` row with id `h` and no `VirtualMachine` row with `host_id = h`
remain; the counterexample `roundTrip_leaves_network_rows` shows the
original claim is false for `Network` rows, which carry `HostID` and are
never deleted by `RemoveHost`. -/
theorem addReconcileRemove_clears_host_and_vms (db : DB) (host : Host)
    (connectOK : Bool) (live : List VMInfo)
    (getInfo : String → Except DriverErr VMInfo)
    (getHW : String → Option HardwareInfo) (fresh : String → String) :
    let db1 := (addHost db host connectOK).db
    let db2 := (syncAndListVMs db1 host.id live getInfo getHW fresh).1
    let db3 := (removeHost db2 host.id).db
    (∀ x ∈ db3.hosts, x.id ≠ host.id) ∧ (∀ v ∈ db3.vms, v.hostID ≠ host.id) := by
  intro db1 db2 db3
  constructor
  · intro x hx
    rw [show db3.hosts = removeWhere (fun y : Host => y.id = host.id) db2.hosts
      from rfl] at hx
    exact (mem_removeWhere.mp hx).2
  · intro v hv
    rw [show db3.vms
      = removeWhere (fun w : VirtualMachine => w.hostID = host.id) db2.vms
      from rfl] at hv
    exact (mem_removeWhere.mp hv).2

/-- Counterexample to C4 as stated: the add-reconcile-remove round trip
deletes the `Host` and `VirtualMachine` rows but leaves a `Network` row
whose `host_id` is the removed host. -/
theorem roundTrip_leaves_network_rows :
    (let db1 := (addHost emptyDB c4host true).db
     let db2 := (syncAndListVMs db1 "h1" [c4vi] (fun _ => .ok c4vi)
        (fun _ => some c4hw) (fun _ => "fresh")).1
     let db3 := (removeHost db2 "h1").db
     db3.hosts = [] ∧ db3.vms = [] ∧
       db3.networks.map (fun n => n.hostID) = ["h1"]) := by
  decide

/-- Witness for C4 (amended) at the concrete counterexample inputs. -/
theorem addReconcileRemove_clears_witness :
    let db3 := (removeHost (syncAndListVMs (addHost emptyDB c4host true).db "h1"
      [c4vi] (fun _ => .ok c4vi) (fun _ => some c4hw) (fun _ => "fresh")).1 "h1").db
    (∀ x ∈ db3.hosts, x.id ≠ "h1") ∧ (∀ v ∈ db3.vms, v.hostID ≠ "h1") := by
  exact addReconcileRemove_clears_host_and_vms emptyDB c4host true [c4vi]
    (fun _ => .ok c4vi) (fun _ => some c4hw) (fun _ => "fresh")

/-- C10: `GetVMHardwareAndTriggerSync` never propagates a driver or sync
error — the universally quantified `domInfo` covers every driver outcome —
and returns `none` (the error return) exactly when, after the sync, no
`VirtualMachine` row for `(host_id, vm_name)` is in the cache; its store is
exactly the post-sync store. -/
theorem getVMHardwareAndTriggerSync_err_iff (db : DB) (hostID vmName : String)
    (domInfo : Except DriverErr VMInfo) (hwInfo : Option HardwareInfo)
    (freshUUID : String) :
    ((getVMHardwareAndTriggerSync db hostID vmName domInfo hwInfo freshUUID).result
        = none ↔
      firstWhere (fun v : VirtualMachine => v.hostID = hostID ∧ v.name = vmName)
        (getVMHardwareAndTriggerSync db hostID vmName domInfo hwInfo freshUUID).db.vms
        = none) ∧
    (getVMHardwareAndTriggerSync db hostID vmName domInfo hwInfo freshUUID).db
      = (syncSingleVM db hostID vmName domInfo hwInfo freshUUID).1 := by
  refine ⟨?_, rfl⟩
  show getVMHardwareFromDB (syncSingleVM db hostID vmName domInfo hwInfo freshUUID).1
      hostID vmName = none ↔
    firstWhere (fun v : VirtualMachine => v.hostID = hostID ∧ v.name = vmName)
      (syncSingleVM db hostID vmName domInfo hwInfo freshUUID).1.vms = none
  unfold getVMHardwareFromDB
  cases h : firstWhere (fun v : VirtualMachine => v.hostID = hostID ∧ v.name = vmName)
      (syncSingleVM db hostID vmName domInfo hwInfo freshUUID).1.vms with
  | none => simp
  | some vm => simp

/-- C9: the libvirt-to-cache state mapping is total with
Running→ACTIVE, Paused→PAUSED, Shutdown/Shutoff/Crashed→STOPPED,
Pmsuspended→SUSPENDED, and every other value (including unknown or future
states) defaulting to STOPPED; hence the mapped state always lies in the
four-value set. -/
theorem mapLibvirtStateToVMState_total :
    mapLibvirtStateToVMState domainRunning = .active ∧
    mapLibvirtStateToVMState domainPaused = .paused ∧
    mapLibvirtStateToVMState domainShutdown = .stopped ∧
    mapLibvirtStateToVMState domainShutoff = .stopped ∧
    mapLibvirtStateToVMState domainCrashed = .stopped ∧
    mapLibvirtStateToVMState domainPmsuspended = .suspended ∧
    (∀ s : Int, s ≠ domainRunning → s ≠ domainPaused → s ≠ domainShutdown →
      s ≠ domainShutoff → s ≠ domainCrashed → s ≠ domainPmsuspended →
      mapLibvirtStateToVMState s = .stopped) ∧
    (∀ s : Int, mapLibvirtStateToVMState s = .active ∨
      mapLibvirtStateToVMState s = .paused ∨
      mapLibvirtStateToVMState s = .stopped ∨
      mapLibvirtStateToVMState s = .suspended) := by
  refine ⟨by decide, by decide, by decide, by decide, by decide, by decide, ?_, ?_⟩
  · intro s h1 h2 h3 h4 h5 h6
    simp [mapLibvirtStateToVMState, h1, h2, h3, h4, h5, h6]
  · intro s
    unfold mapLibvirtStateToVMState
    split
    · exact Or.inl rfl
    · split
      · exact Or.inr (Or.inl rfl)
      · split
        · exact Or.inr (Or.inr (Or.inl rfl))
        · split
          · exact Or.inr (Or.inr (Or.inr rfl))
          · exact Or.inr (Or.inr (Or.inl rfl))

/-- Witness for C9: the universally quantified clauses evaluated at the
concrete unknown state 42 (not one of the named libvirt states). -/
theorem mapLibvirtStateToVMState_total_witness :
    mapLibvirtStateToVMState 42 = .stopped ∧
    (mapLibvirtStateToVMState 42 = .active ∨ mapLibvirtStateToVMState 42 = .paused ∨
      mapLibvirtStateToVMState 42 = .stopped ∨ mapLibvirtStateToVMState 42 = .suspended) :=
  ⟨mapLibvirtStateToVMState_total.2.2.2.2.2.2.1 42 (by decide) (by decide) (by decide)
      (by decide) (by decide) (by decide),
    mapLibvirtStateToVMState_total.2.2.2.2.2.2.2 42⟩

end Virtumancer
